import Mathlib

/-!
Shallow embedding of the session-orchestration core of the
hcaptcha-challenger repository:

* the quota ledger (`src/hcaptcha_challenger/agent/quota_manager.py`),
* the rotation scheduler (`src/hcaptcha_challenger/agent/robotic_arm.py`,
  method `_get_available_model_and_keys`),
* the network event interceptor
  (`src/hcaptcha_challenger/agent/pilot/core.py`, method `task_handler`),
* the session state machine (`src/hcaptcha_challenger/agent/agent.py`,
  method `wait_for_challenge`).

Timestamps are modelled as seconds since the Unix epoch (`Nat`), so the
`datetime` comparisons of the source become `Nat` comparisons and
"today at 08:00 UTC" becomes `now / 86400 * 86400 + 8 * 3600`.
-/

/-- One row of the sqlite `quotas` table created by
`QuotaManager._init_db`: columns `exhausted_at`, `failure_count`
(default 0), `last_failure`, `temp_exhausted_until`, `backoff_count`
(default 0).  Nullable timestamp columns become `Option Nat`. -/
structure QuotaRecord where
  exhausted_at : Option Nat
  failure_count : Nat
  last_failure : Option Nat
  temp_exhausted_until : Option Nat
  backoff_count : Nat
deriving DecidableEq, Repr

/-- The database held by `QuotaManager`: the `quotas` table as a map from
`key_id` to its row, and the `metadata` table's single `last_reset` entry. -/
structure QuotaDB where
  quotas : String → Option QuotaRecord
  last_reset : Option Nat

/-- `now_utc.replace(hour=8, minute=0, second=0, microsecond=0)` from
`QuotaManager._check_reset`: today's 08:00 UTC boundary. -/
def resetTimeToday (now : Nat) : Nat :=
  now / 86400 * 86400 + 8 * 3600

/-- `QuotaManager._check_reset`: if the `last_reset` metadata row is absent,
or `now >= reset_time_today and last_reset < reset_time_today`, delete every
row of `quotas` and write `last_reset = now`. -/
def check_reset (db : QuotaDB) (now : Nat) : QuotaDB :=
  let boundary := resetTimeToday now
  let should_reset : Bool :=
    match db.last_reset with
    | none => true
    | some last => decide (boundary ≤ now) && decide (last < boundary)
  if should_reset then { quotas := fun _ => none, last_reset := some now } else db

/-- Upsert of a single `quotas` row keyed by `key_id`. -/
def setRecord (db : QuotaDB) (key : String) (r : QuotaRecord) : QuotaDB :=
  { db with quotas := fun k => if k = key then some r else db.quotas k }

/-- `QuotaManager.is_exhausted`: run `_check_reset` first; a present row is
exhausted when `exhausted_at` is set, or `temp_exhausted_until` is in the
future, or `failure_count >= 3`; an expired cooldown is cleared in place.
Returns the boolean verdict together with the database after side effects. -/
def is_exhausted (db0 : QuotaDB) (key : String) (now : Nat) : Bool × QuotaDB :=
  let db := check_reset db0 now
  match db.quotas key with
  | none => (false, db)
  | some r =>
    if r.exhausted_at.isSome then (true, db)
    else
      match r.temp_exhausted_until with
      | some t =>
        if now < t then (true, db)
        else
          let db2 := setRecord db key { r with temp_exhausted_until := none }
          (decide (3 ≤ r.failure_count), db2)
      | none => (decide (3 ≤ r.failure_count), db)

/-- `QuotaManager.mark_exhausted`: read the current `backoff_count`
(0 when the row is absent), increment it, compute
`min(30 * 2 ** (new_count - 1), 960)` seconds of cooldown, and upsert
`temp_exhausted_until = now + cooldown` and the new `backoff_count`
(the insert path leaves the other columns at their defaults). -/
def mark_exhausted (db : QuotaDB) (key : String) (now : Nat) : QuotaDB :=
  let current := match db.quotas key with | none => 0 | some r => r.backoff_count
  let new_count := current + 1
  let backoff_seconds := min (30 * 2 ^ (new_count - 1)) 960
  let r : QuotaRecord :=
    match db.quotas key with
    | none =>
      { exhausted_at := none, failure_count := 0, last_failure := none,
        temp_exhausted_until := some (now + backoff_seconds), backoff_count := new_count }
    | some r0 =>
      { r0 with temp_exhausted_until := some (now + backoff_seconds),
                backoff_count := new_count }
  setRecord db key r

/-- `QuotaManager.mark_failure`: upsert with `failure_count = failure_count + 1`
(1 on insert) and `last_failure = now`. -/
def mark_failure (db : QuotaDB) (key : String) (now : Nat) : QuotaDB :=
  let r : QuotaRecord :=
    match db.quotas key with
    | none =>
      { exhausted_at := none, failure_count := 1, last_failure := some now,
        temp_exhausted_until := none, backoff_count := 0 }
    | some r0 =>
      { r0 with failure_count := r0.failure_count + 1, last_failure := some now }
  setRecord db key r

/-- `QuotaManager.mark_success`: a SQL `UPDATE ... WHERE key_id = ?` — a no-op
when the row is absent; otherwise sets `failure_count = 0`, clears
`last_failure` and `temp_exhausted_until`, and sets
`backoff_count = MAX(0, backoff_count - 2)` (truncated `Nat` subtraction). -/
def mark_success (db : QuotaDB) (key : String) : QuotaDB :=
  match db.quotas key with
  | none => db
  | some r0 =>
    setRecord db key
      { r0 with failure_count := 0, last_failure := none,
                temp_exhausted_until := none, backoff_count := r0.backoff_count - 2 }

/-- `failure_count` of a key, with the column default 0 for an absent row. -/
def failureCountOf (db : QuotaDB) (key : String) : Nat :=
  match db.quotas key with
  | none => 0
  | some r => r.failure_count

/-- `backoff_count` of a key, with the column default 0 for an absent row. -/
def backoffCountOf (db : QuotaDB) (key : String) : Nat :=
  match db.quotas key with
  | none => 0
  | some r => r.backoff_count

/-- `temp_exhausted_until` of a key, `none` for an absent row. -/
def tempUntilOf (db : QuotaDB) (key : String) : Option Nat :=
  match db.quotas key with
  | none => none
  | some r => r.temp_exhausted_until

/-- `last_failure` of a key, `none` for an absent row. -/
def lastFailureOf (db : QuotaDB) (key : String) : Option Nat :=
  match db.quotas key with
  | none => none
  | some r => r.last_failure

/-- The database right after `QuotaManager._init_db` on a fresh cache
directory: both tables exist and are empty. -/
def freshQuotaDB : QuotaDB :=
  { quotas := fun _ => none, last_reset := none }

/-- `QuotaManager.__init__` on a fresh cache directory: `_init_db` followed
by `_check_reset`. -/
def quotaManagerInit (now : Nat) : QuotaDB :=
  check_reset freshQuotaDB now

/-- The hard-coded model priority list of
`RoboticArm._get_available_model_and_keys` (lighter models first). -/
def model_priority : List String :=
  ["gemini-2.5-flash", "gemini-2.5-flash-lite", "gemini-3-flash"]

/-- `[preferred] + [m for m in model_priority if m != preferred]` when a
preferred model is supplied, the unchanged list otherwise. -/
def reorder_priority (preferred : Option String) (ms : List String) : List String :=
  match preferred with
  | none => ms
  | some p => p :: ms.filter (fun m => m != p)

/-- The `for model in model_priority` loop of
`RoboticArm._get_available_model_and_keys`: the first model (in priority
order) whose filtered, non-exhausted credential list is non-empty.
`exhausted key model` stands for `quota_manager.is_exhausted(key, model)`. -/
def first_available (exhausted : String → String → Bool) (api_keys : List String) :
    List String → Option (String × List String)
  | [] => none
  | m :: ms =>
    let avail := api_keys.filter (fun k => !(exhausted k m))
    if avail.isEmpty then first_available exhausted api_keys ms else some (m, avail)

/-- `RoboticArm._get_available_model_and_keys`: reorder the priority list
around the preferred model, scan for the first model with available keys,
and otherwise fall back to the top-priority model with the first configured
key (`(None, [])` when no keys are configured at all). -/
def get_available_model_and_keys (exhausted : String → String → Bool)
    (api_keys : List String) (preferred : Option String) : Option String × List String :=
  let ms := reorder_priority preferred model_priority
  match first_available exhausted api_keys ms with
  | some (m, ks) => (some m, ks)
  | none =>
    match api_keys with
    | [] => (none, [])
    | k :: _ => (ms.head?, [k])

/-- `CaptchaPayload`, opaque to the state machine; only its identity matters. -/
structure CaptchaPayload where
  data : Nat
deriving DecidableEq, Repr

/-- `CaptchaResponse`: the pass/fail verdict consumed by the state machine. -/
structure CaptchaResponse where
  is_pass : Bool
deriving DecidableEq, Repr

/-- The two queues filled by `PilotCore.task_handler`: the FIFO payload queue
(whose entries may be `None` after a failed binary decode) and the verdict
queue. -/
structure InterceptorQueues where
  payload_q : List (Option CaptchaPayload)
  response_q : List CaptchaResponse
deriving DecidableEq, Repr

/-- A network response event as classified by `PilotCore.task_handler`:
the `/hsw.js` bootstrap, a `/getcaptcha/` JSON body carrying `pass`, a
`/getcaptcha/` JSON body carrying `request_config`, a `/getcaptcha/` JSON
body carrying neither, a `/getcaptcha/` binary body with its decode result
(`none` when the page-side `hsw` decode fails), a `/checkcaptcha/` result,
or anything else. -/
inductive NetEvent where
  | bootstrap
  | getJsonPass (v : CaptchaResponse)
  | getJsonPayload (p : CaptchaPayload)
  | getJsonOther
  | getBinary (decoded : Option CaptchaPayload)
  | checkResult (v : CaptchaResponse)
  | unmatched
deriving DecidableEq, Repr

/-- The queue effects of `PilotCore.task_handler` for one event: the
`getcaptcha` JSON `pass` branch drains `captcha_response_queue` before
enqueuing; payload deliveries append; the `checkcaptcha` branch appends to
`captcha_response_queue` without draining. -/
def task_handler (q : InterceptorQueues) (e : NetEvent) : InterceptorQueues :=
  match e with
  | .bootstrap => q
  | .getJsonPass v => { q with response_q := [v] }
  | .getJsonPayload p => { q with payload_q := q.payload_q ++ [some p] }
  | .getJsonOther => q
  | .getBinary d => { q with payload_q := q.payload_q ++ [d] }
  | .checkResult v => { q with response_q := q.response_q ++ [v] }
  | .unmatched => q

/-- `SolveState` from `agent/config.py`. -/
inductive SolveState where
  | INIT
  | CHALLENGE_PENDING
  | CHALLENGING
  | SUBMITTED
  | SUCCESS
  | FAILURE
deriving DecidableEq, Repr

/-- The `AgentConfig` fields consumed by `AgentV.wait_for_challenge`,
with their declared defaults. -/
structure AgentConfig where
  MAX_CHALLENGE_ATTEMPTS : Nat := 4
  MAX_RESETS : Nat := 1
  EXECUTION_TIMEOUT : Nat := 180
  RESPONSE_TIMEOUT : Nat := 45
  RETRY_ON_FAILURE : Bool := true
deriving DecidableEq, Repr

/-- The mutable session fields of `AgentV` touched by the
`wait_for_challenge` loop. -/
structure SessionState where
  state : SolveState
  reset_count : Nat
  challenge_attempts : Nat
  captcha_payload : Option CaptchaPayload
  cr_list : List CaptchaResponse
deriving DecidableEq, Repr

/-- The resolution of the `SUBMITTED`-state race
(`asyncio.wait([res_task, pay_task], timeout=RESPONSE_TIMEOUT,
return_when=FIRST_COMPLETED)`): neither task done before the timeout, the
payload task first, the verdict task first, or an exception in the wait. -/
inductive RaceOutcome where
  | timeout
  | payloadFirst (p : CaptchaPayload)
  | verdictFirst (v : CaptchaResponse)
  | raceError
deriving DecidableEq, Repr

/-- The resolution of `asyncio.wait_for(self._solve_captcha_flow(), 120)`:
a truthy result, a falsy result, `asyncio.TimeoutError`, or another
exception. -/
inductive DispatchOutcome where
  | ok
  | failed
  | timedOut
  | raisedError
deriving DecidableEq, Repr

/-- The environment's answers consumed by one iteration of the
`wait_for_challenge` loop. -/
structure StepInput where
  dispatch : DispatchOutcome
  race : RaceOutcome
deriving DecidableEq, Repr

/-- The `if self.state == SolveState.SUBMITTED` block of
`AgentV.wait_for_challenge` (agent.py lines 124-168). -/
def submitted_step (cfg : AgentConfig) (s : SessionState) (o : RaceOutcome) : SessionState :=
  match o with
  | .timeout => { s with state := .FAILURE }
  | .payloadFirst p =>
    if cfg.MAX_RESETS < s.reset_count + 1 then
      { s with reset_count := s.reset_count + 1, state := .FAILURE }
    else
      { s with reset_count := s.reset_count + 1, captcha_payload := some p,
               state := .CHALLENGE_PENDING }
  | .verdictFirst v =>
    if v.is_pass then
      { s with cr_list := s.cr_list ++ [v], state := .SUCCESS }
    else if cfg.RETRY_ON_FAILURE then { s with state := .INIT }
    else { s with state := .FAILURE }
  | .raceError => { s with state := .FAILURE }

/-- One iteration of the `while self.state not in [SUCCESS, FAILURE]` loop of
`AgentV.wait_for_challenge`: increment `challenge_attempts` and force
`FAILURE` past the limit; in `INIT`/`CHALLENGE_PENDING` run the dispatch
(success falls through to the `SUBMITTED` block in the same iteration;
an explicit failure increments `reset_count` and checks `MAX_RESETS`;
a timeout or another exception reloads and returns to `INIT` without
touching `reset_count`); in `SUBMITTED` run the verdict/payload race.
A terminal state is returned unchanged (the loop has exited). -/
def loop_step (cfg : AgentConfig) (s : SessionState) (inp : StepInput) : SessionState :=
  if s.state = .SUCCESS ∨ s.state = .FAILURE then s
  else
    let s1 := { s with challenge_attempts := s.challenge_attempts + 1 }
    if cfg.MAX_CHALLENGE_ATTEMPTS < s1.challenge_attempts then { s1 with state := .FAILURE }
    else
      let s2 :=
        if s1.state = .INIT ∨ s1.state = .CHALLENGE_PENDING then
          match inp.dispatch with
          | .ok => { s1 with state := .SUBMITTED }
          | .failed =>
            if cfg.MAX_RESETS < s1.reset_count + 1 then
              { s1 with reset_count := s1.reset_count + 1, state := .FAILURE }
            else { s1 with reset_count := s1.reset_count + 1, state := .INIT }
          | .timedOut => { s1 with state := .INIT }
          | .raisedError => { s1 with state := .INIT }
        else s1
      if s2.state = .SUBMITTED then submitted_step cfg s2 inp.race else s2

/-! ### Helper lemmas -/

/-- `check_reset` is a no-op when a `last_reset` entry exists and the reset
condition does not hold. -/
theorem check_reset_noop (db : QuotaDB) (now l : Nat) (h : db.last_reset = some l)
    (h2 : ¬ (resetTimeToday now ≤ now ∧ l < resetTimeToday now)) :
    check_reset db now = db := by
  unfold check_reset
  rw [h]
  rcases Decidable.not_and_iff_or_not.mp h2 with h3 | h3 <;> simp [h3]

/-- The row read back for a key right after `mark_failure` on that key. -/
theorem mark_failure_quotas (db : QuotaDB) (key : String) (t : Nat) :
    (mark_failure db key t).quotas key
      = some (match db.quotas key with
          | none =>
            { exhausted_at := none, failure_count := 1, last_failure := some t,
              temp_exhausted_until := none, backoff_count := 0 }
          | some r0 =>
            { r0 with failure_count := r0.failure_count + 1, last_failure := some t }) := by
  unfold mark_failure setRecord
  simp

/-- `mark_failure` leaves the `last_reset` metadata untouched. -/
theorem mark_failure_last_reset (db : QuotaDB) (key : String) (t : Nat) :
    (mark_failure db key t).last_reset = db.last_reset := rfl

/-- No branch of the `SUBMITTED` block touches `challenge_attempts`. -/
theorem submitted_step_attempts (cfg : AgentConfig) (s : SessionState) (o : RaceOutcome) :
    (submitted_step cfg s o).challenge_attempts = s.challenge_attempts := by
  cases o <;> simp only [submitted_step] <;> (repeat' split) <;> rfl

/-! ### Quota ledger claims -/

/-- Claim C5: each `mark_exhausted` call increments `backoff_count` and sets
`temp_exhausted_until` to `now` plus `min(30 * 2 ** (backoff_count - 1), 960)`
seconds, so successive calls with no intervening success produce the cooldown
sequence 30, 60, 120, 240, 480, 960, 960, … seconds. -/
theorem mark_exhausted_backoff (db : QuotaDB) (key : String) (now : Nat) :
    backoffCountOf (mark_exhausted db key now) key = backoffCountOf db key + 1
    ∧ tempUntilOf (mark_exhausted db key now) key
        = some (now + min (30 * 2 ^ backoffCountOf db key) 960)
    ∧ (List.range 7).map (fun n => min (30 * 2 ^ n) 960)
        = [30, 60, 120, 240, 480, 960, 960] := by
  refine ⟨?_, ?_, by decide⟩
  · unfold backoffCountOf mark_exhausted setRecord
    cases h : db.quotas key <;> simp [h]
  · unfold tempUntilOf backoffCountOf mark_exhausted setRecord
    cases h : db.quotas key <;> simp [h]

/-- Claim C6: after `mark_success` the key's `failure_count` is 0,
`last_failure` and `temp_exhausted_until` are cleared, and `backoff_count`
equals `max(0, backoff_count_before - 2)` — a gradual backoff recovery. -/
theorem mark_success_spec (db : QuotaDB) (key : String) :
    failureCountOf (mark_success db key) key = 0
    ∧ lastFailureOf (mark_success db key) key = none
    ∧ tempUntilOf (mark_success db key) key = none
    ∧ (backoffCountOf (mark_success db key) key : Int)
        = max 0 ((backoffCountOf db key : Int) - 2) := by
  unfold failureCountOf lastFailureOf tempUntilOf backoffCountOf mark_success setRecord
  cases h : db.quotas key <;> (simp [h]; try omega)

/-- Claim C7: when `now` is at or past today's 08:00 UTC boundary and the
stored `last_reset` precedes that boundary, `check_reset` clears every quota
record and advances `last_reset` to `now`; a second ledger access later the
same day performs no reset. -/
theorem daily_reset_spec (db : QuotaDB) (now now2 last : Nat)
    (h1 : db.last_reset = some last)
    (h2 : resetTimeToday now ≤ now)
    (h3 : last < resetTimeToday now) :
    (∀ k, (check_reset db now).quotas k = none)
    ∧ (check_reset db now).last_reset = some now
    ∧ (now ≤ now2 → now2 / 86400 = now / 86400 →
        check_reset (check_reset db now) now2 = check_reset db now) := by
  have hfire : check_reset db now = { quotas := fun _ => none, last_reset := some now } := by
    unfold check_reset
    rw [h1]
    simp [h2, h3]
  refine ⟨fun k => by rw [hfire], by rw [hfire], fun hle hday => ?_⟩
  rw [hfire]
  have hnot : ¬ (now < resetTimeToday now2) := by
    unfold resetTimeToday at h2 ⊢
    omega
  unfold check_reset
  simp [hnot]

/-- Witness for claim C7 at a concrete instant: `last_reset = 0`,
first access at 30000 s (past the 28800 s boundary of day 0),
second access at 40000 s the same day. -/
theorem daily_reset_spec_witness :
    ({ quotas := fun _ => none, last_reset := some 0 } : QuotaDB).last_reset = some 0
    ∧ resetTimeToday 30000 ≤ 30000
    ∧ 0 < resetTimeToday 30000
    ∧ (check_reset { quotas := fun _ => none, last_reset := some 0 } 30000).quotas "k" = none
    ∧ (check_reset { quotas := fun _ => none, last_reset := some 0 } 30000).last_reset
        = some 30000
    ∧ check_reset (check_reset { quotas := fun _ => none, last_reset := some 0 } 30000) 40000
        = check_reset { quotas := fun _ => none, last_reset := some 0 } 30000 := by
  have h := daily_reset_spec { quotas := fun _ => none, last_reset := some 0 } 30000 40000 0
    rfl (by decide) (by decide)
  exact ⟨rfl, by decide, by decide, h.1 "k", h.2.1, h.2.2 (by decide) (by decide)⟩

/-- Claim C10: when the metadata store has no `last_reset` entry, any
`_check_reset` performs a full reset regardless of the boundary, and
`QuotaManager` construction on a fresh ledger therefore leaves the ledger
empty with `last_reset = now`. -/
theorem missing_last_reset_full_reset :
    (∀ (db : QuotaDB) (now : Nat), db.last_reset = none →
        check_reset db now = { quotas := fun _ => none, last_reset := some now })
    ∧ (∀ now : Nat,
        quotaManagerInit now = { quotas := fun _ => none, last_reset := some now }) := by
  constructor
  · intro db now h
    unfold check_reset
    rw [h]
    rfl
  · intro now
    rfl

/-- Witness for claim C10 on the fresh ledger at 12345 s (before the 28800 s
boundary of day 0, so the boundary has not been reached). -/
theorem missing_last_reset_full_reset_witness :
    freshQuotaDB.last_reset = none
    ∧ check_reset freshQuotaDB 12345
        = { quotas := fun _ => none, last_reset := some 12345 } :=
  ⟨rfl, missing_last_reset_full_reset.1 freshQuotaDB 12345 rfl⟩

/-! ### Event interceptor claims -/

/-- Claim C9 counterexample: two `/checkcaptcha/` verdict events are both
enqueued without draining, so two verdicts are visible in the queue at once,
refuting the claim that every verdict enqueue first drains stale entries. -/
theorem verdict_drain_counterexample :
    (task_handler (task_handler { payload_q := [], response_q := [] }
        (.checkResult { is_pass := true })) (.checkResult { is_pass := false })).response_q
      = [{ is_pass := true }, { is_pass := false }]
    ∧ ¬ ((task_handler (task_handler { payload_q := [], response_q := [] }
        (.checkResult { is_pass := true }))
        (.checkResult { is_pass := false })).response_q.length ≤ 1) := by
  decide

/-- Claim C9 amended: only verdicts arriving through the `getcaptcha` JSON
`pass` branch drain the verdict queue before enqueuing (last-value-wins);
verdicts from the `checkcaptcha` branch are appended without draining, so
several verdicts can be visible at once; the payload queue is append-only
FIFO in both its branches. -/
theorem verdict_enqueue_amended (q : InterceptorQueues) (v : CaptchaResponse)
    (p : CaptchaPayload) (d : Option CaptchaPayload) :
    task_handler q (.getJsonPass v) = { q with response_q := [v] }
    ∧ task_handler q (.checkResult v) = { q with response_q := q.response_q ++ [v] }
    ∧ task_handler q (.getJsonPayload p) = { q with payload_q := q.payload_q ++ [some p] }
    ∧ task_handler q (.getBinary d) = { q with payload_q := q.payload_q ++ [d] } :=
  ⟨rfl, rfl, rfl, rfl⟩

/-- Claim C4: `is_exhausted` runs the daily-reset check first and then
returns true exactly when the key's record exists (in the post-reset
database) and `exhausted_at` is set, or `temp_exhausted_until` is in the
future, or `failure_count >= 3`; an expired cooldown window is cleared as a
side effect; three consecutive `mark_failure` calls alone make
`is_exhausted` true even with `temp_exhausted_until` unset. -/
theorem is_exhausted_spec (db : QuotaDB) (key : String) (now : Nat) :
    ((is_exhausted db key now).1 = true ↔
      ∃ r, (check_reset db now).quotas key = some r ∧
        (r.exhausted_at.isSome = true
          ∨ (∃ t, r.temp_exhausted_until = some t ∧ now < t)
          ∨ 3 ≤ r.failure_count))
    ∧ (∀ r t, (check_reset db now).quotas key = some r →
        r.exhausted_at = none → r.temp_exhausted_until = some t → t ≤ now →
        (is_exhausted db key now).2.quotas key
          = some { r with temp_exhausted_until := none })
    ∧ (∀ l t1 t2 t3, db.quotas key = none → db.last_reset = some l →
        ¬ (resetTimeToday now ≤ now ∧ l < resetTimeToday now) →
        (is_exhausted (mark_failure (mark_failure (mark_failure db key t1) key t2) key t3)
            key now).1 = true) := by
  refine ⟨?_, ?_, ?_⟩
  · simp only [is_exhausted]
    cases h : (check_reset db now).quotas key with
    | none => simp [h]
    | some r =>
      simp only [h]
      cases he : r.exhausted_at with
      | some e => simp [he]
      | none =>
        cases ht : r.temp_exhausted_until with
        | some t =>
          by_cases hlt : now < t
          · simp [he, ht, hlt]
          · simp [he, ht, hlt]
        | none => simp [he, ht]
  · intro r t hr he ht hle
    simp [is_exhausted, hr, he, ht, Nat.not_lt.mpr hle, setRecord]
  · intro l t1 t2 t3 hq hl hnr
    have e1 : (mark_failure db key t1).quotas key
        = some { exhausted_at := none, failure_count := 1, last_failure := some t1,
                 temp_exhausted_until := none, backoff_count := 0 } := by
      rw [mark_failure_quotas, hq]
    have e2 : (mark_failure (mark_failure db key t1) key t2).quotas key
        = some { exhausted_at := none, failure_count := 2, last_failure := some t2,
                 temp_exhausted_until := none, backoff_count := 0 } := by
      rw [mark_failure_quotas, e1]
    have e3 : (mark_failure (mark_failure (mark_failure db key t1) key t2) key t3).quotas key
        = some { exhausted_at := none, failure_count := 3, last_failure := some t3,
                 temp_exhausted_until := none, backoff_count := 0 } := by
      rw [mark_failure_quotas, e2]
    have hl3 : (mark_failure (mark_failure (mark_failure db key t1) key t2) key t3).last_reset
        = some l := by
      rw [mark_failure_last_reset, mark_failure_last_reset, mark_failure_last_reset, hl]
    have hcr := check_reset_noop _ now l hl3 hnr
    simp [is_exhausted, hcr, e3]

/-- Witness for claim C4: a key with no record and `last_reset = 40000`
observed at 30000 s (reset condition does not fire) is exhausted after
exactly three `mark_failure` calls with no cooldown window set. -/
theorem is_exhausted_spec_witness :
    ({ quotas := fun _ => none, last_reset := some 40000 } : QuotaDB).quotas "k" = none
    ∧ ({ quotas := fun _ => none, last_reset := some 40000 } : QuotaDB).last_reset = some 40000
    ∧ ¬ (resetTimeToday 30000 ≤ 30000 ∧ 40000 < resetTimeToday 30000)
    ∧ (is_exhausted (mark_failure (mark_failure (mark_failure
          { quotas := fun _ => none, last_reset := some 40000 } "k" 1) "k" 2) "k" 3)
        "k" 30000).1 = true := by
  refine ⟨rfl, rfl, by decide, ?_⟩
  exact (is_exhausted_spec { quotas := fun _ => none, last_reset := some 40000 } "k" 30000).2.2
    40000 1 2 3 rfl rfl (by decide)

/-! ### Session state machine claims -/

/-- Claim C1: in state `SUBMITTED` the controller races the verdict wait and
the payload wait under the response timeout (default 45 s) with exactly one
of three outcomes: neither resolving in time means `FAILURE`; a payload
arriving first increments `reset_count` by exactly 1 and, within the
`MAX_RESETS` budget, replaces the payload wholesale and moves to
`CHALLENGE_PENDING` (never `SUCCESS`), otherwise `FAILURE`; a passing verdict
is cached and moves to `SUCCESS`, while a failing verdict moves to `INIT`
under `RETRY_ON_FAILURE` and to `FAILURE` otherwise. -/
theorem submitted_race_spec (cfg : AgentConfig) (s : SessionState) (inp : StepInput)
    (p : CaptchaPayload) (v : CaptchaResponse) :
    ((submitted_step cfg s .timeout).state = .FAILURE)
    ∧ ((submitted_step cfg s (.payloadFirst p)).reset_count = s.reset_count + 1)
    ∧ (s.reset_count + 1 ≤ cfg.MAX_RESETS →
        (submitted_step cfg s (.payloadFirst p)).state = .CHALLENGE_PENDING
        ∧ (submitted_step cfg s (.payloadFirst p)).captcha_payload = some p
        ∧ (submitted_step cfg s (.payloadFirst p)).state ≠ .SUCCESS)
    ∧ (cfg.MAX_RESETS < s.reset_count + 1 →
        (submitted_step cfg s (.payloadFirst p)).state = .FAILURE)
    ∧ (v.is_pass = true →
        (submitted_step cfg s (.verdictFirst v)).state = .SUCCESS
        ∧ (submitted_step cfg s (.verdictFirst v)).cr_list = s.cr_list ++ [v])
    ∧ (v.is_pass = false →
        (submitted_step cfg s (.verdictFirst v)).state
          = (if cfg.RETRY_ON_FAILURE then .INIT else .FAILURE))
    ∧ (s.state = .SUBMITTED → s.challenge_attempts + 1 ≤ cfg.MAX_CHALLENGE_ATTEMPTS →
        loop_step cfg s inp
          = submitted_step cfg { s with challenge_attempts := s.challenge_attempts + 1 }
              inp.race)
    ∧ ({} : AgentConfig).RESPONSE_TIMEOUT = 45 := by
  refine ⟨rfl, ?_, ?_, ?_, ?_, ?_, ?_, rfl⟩
  · simp only [submitted_step]
    split <;> rfl
  · intro h
    simp [submitted_step, Nat.not_lt.mpr h]
  · intro h
    simp [submitted_step, h]
  · intro h
    simp [submitted_step, h]
  · intro h
    by_cases hr : cfg.RETRY_ON_FAILURE <;> simp [submitted_step, h, hr]
  · intro hs hb
    simp [loop_step, hs, Nat.not_lt.mpr hb]

/-- Witness for claim C1 at the default configuration (`MAX_RESETS = 1`):
from a `SUBMITTED` session with `reset_count = 0`, a fresh payload moves the
session to `CHALLENGE_PENDING` with the payload replaced; one loop iteration
agrees with the `SUBMITTED` block; a failing verdict returns to `INIT` under
the default `RETRY_ON_FAILURE`. -/
theorem submitted_race_spec_witness :
    (0 + 1 ≤ ({} : AgentConfig).MAX_RESETS)
    ∧ (submitted_step {}
        { state := .SUBMITTED, reset_count := 0, challenge_attempts := 1,
          captcha_payload := none, cr_list := [] }
        (.payloadFirst { data := 7 })).state = .CHALLENGE_PENDING
    ∧ (submitted_step {}
        { state := .SUBMITTED, reset_count := 0, challenge_attempts := 1,
          captcha_payload := none, cr_list := [] }
        (.payloadFirst { data := 7 })).captcha_payload = some { data := 7 }
    ∧ ({ is_pass := false } : CaptchaResponse).is_pass = false
    ∧ (submitted_step {}
        { state := .SUBMITTED, reset_count := 0, challenge_attempts := 1,
          captcha_payload := none, cr_list := [] }
        (.verdictFirst { is_pass := false })).state
      = (if ({} : AgentConfig).RETRY_ON_FAILURE then SolveState.INIT else SolveState.FAILURE)
    ∧ (1 + 1 ≤ ({} : AgentConfig).MAX_CHALLENGE_ATTEMPTS)
    ∧ loop_step {}
        { state := .SUBMITTED, reset_count := 0, challenge_attempts := 1,
          captcha_payload := none, cr_list := [] }
        { dispatch := .ok, race := .payloadFirst { data := 7 } }
      = submitted_step {}
          { state := .SUBMITTED, reset_count := 0, challenge_attempts := 2,
            captcha_payload := none, cr_list := [] }
          (.payloadFirst { data := 7 }) := by
  have h := submitted_race_spec {}
    { state := .SUBMITTED, reset_count := 0, challenge_attempts := 1,
      captcha_payload := none, cr_list := [] }
    { dispatch := .ok, race := .payloadFirst { data := 7 } } { data := 7 } { is_pass := false }
  exact ⟨by decide, (h.2.2.1 (by decide)).1, (h.2.2.1 (by decide)).2.1, rfl,
    h.2.2.2.2.2.1 rfl, by decide, h.2.2.2.2.2.2.1 rfl (by decide)⟩

/-- Claim C2 counterexample: at the default configuration, from `INIT` with
`reset_count = 0`, a dispatch timeout loops back to `INIT` but leaves
`reset_count` at 0, refuting the claim that a timeout increments
`reset_count` exactly as an explicit dispatch failure does (an explicit
failure from the same state leaves `reset_count = 1`). -/
theorem dispatch_timeout_counterexample :
    (loop_step {}
      { state := .INIT, reset_count := 0, challenge_attempts := 0,
        captcha_payload := none, cr_list := [] }
      { dispatch := .timedOut, race := .timeout }).state = .INIT
    ∧ (loop_step {}
        { state := .INIT, reset_count := 0, challenge_attempts := 0,
          captcha_payload := none, cr_list := [] }
        { dispatch := .timedOut, race := .timeout }).reset_count = 0
    ∧ ¬ ((loop_step {}
        { state := .INIT, reset_count := 0, challenge_attempts := 0,
          captcha_payload := none, cr_list := [] }
        { dispatch := .timedOut, race := .timeout }).reset_count = 0 + 1)
    ∧ (loop_step {}
        { state := .INIT, reset_count := 0, challenge_attempts := 0,
          captcha_payload := none, cr_list := [] }
        { dispatch := .failed, race := .timeout }).reset_count = 0 + 1 := by
  decide

/-- Claim C2 amended: in `INIT` or `CHALLENGE_PENDING`, a dispatch timeout is
folded into the retry policy like a failure — the surface is reloaded and the
state loops back to `INIT` — but it does NOT increment `reset_count` and is
never checked against `MAX_RESETS`; only an explicit dispatch failure
increments `reset_count` and checks it against the reset budget, so the two
cases are distinguishable by the reset counter. -/
theorem dispatch_timeout_amended (cfg : AgentConfig) (s : SessionState) (inp : StepInput)
    (h1 : s.state = .INIT ∨ s.state = .CHALLENGE_PENDING)
    (h2 : s.challenge_attempts + 1 ≤ cfg.MAX_CHALLENGE_ATTEMPTS) :
    (inp.dispatch = .timedOut →
      loop_step cfg s inp
        = { s with challenge_attempts := s.challenge_attempts + 1, state := .INIT })
    ∧ (inp.dispatch = .failed →
        (loop_step cfg s inp).reset_count = s.reset_count + 1
        ∧ (loop_step cfg s inp).state
            = (if cfg.MAX_RESETS < s.reset_count + 1 then .FAILURE else .INIT)) := by
  have hns : ¬ (s.state = SolveState.SUCCESS ∨ s.state = SolveState.FAILURE) := by
    rcases h1 with h | h <;> simp [h]
  have h2' := Nat.not_lt.mpr h2
  constructor
  · intro hd
    rcases h1 with h | h <;> simp [loop_step, h, hd, hns, h2']
  · intro hd
    rcases h1 with h | h <;>
      by_cases hmr : cfg.MAX_RESETS < s.reset_count + 1 <;>
        simp [loop_step, h, hd, hns, h2', hmr]

/-- Witness for claim C2 amended, at the default configuration from `INIT`:
a timeout keeps `reset_count` at 0 and returns to `INIT`; an explicit failure
moves `reset_count` to 1. -/
theorem dispatch_timeout_amended_witness :
    (({ state := .INIT, reset_count := 0, challenge_attempts := 0,
        captcha_payload := none, cr_list := [] } : SessionState).state = SolveState.INIT
      ∨ ({ state := .INIT, reset_count := 0, challenge_attempts := 0,
           captcha_payload := none, cr_list := [] } : SessionState).state
          = SolveState.CHALLENGE_PENDING)
    ∧ (0 + 1 ≤ ({} : AgentConfig).MAX_CHALLENGE_ATTEMPTS)
    ∧ loop_step {}
        { state := .INIT, reset_count := 0, challenge_attempts := 0,
          captcha_payload := none, cr_list := [] }
        { dispatch := .timedOut, race := .timeout }
      = { state := .INIT, reset_count := 0, challenge_attempts := 1,
          captcha_payload := none, cr_list := [] }
    ∧ (loop_step {}
        { state := .INIT, reset_count := 0, challenge_attempts := 0,
          captcha_payload := none, cr_list := [] }
        { dispatch := .failed, race := .timeout }).reset_count = 0 + 1 := by
  have ht := dispatch_timeout_amended {}
    { state := .INIT, reset_count := 0, challenge_attempts := 0,
      captcha_payload := none, cr_list := [] }
    { dispatch := .timedOut, race := .timeout } (Or.inl rfl) (by decide)
  have hf := dispatch_timeout_amended {}
    { state := .INIT, reset_count := 0, challenge_attempts := 0,
      captcha_payload := none, cr_list := [] }
    { dispatch := .failed, race := .timeout } (Or.inl rfl) (by decide)
  exact ⟨Or.inl rfl, by decide, ht.1 rfl, (hf.2 rfl).1⟩

/-- Claim C3: every loop iteration from a non-terminal state increments
`challenge_attempts`, and as soon as the incremented count exceeds
`MAX_CHALLENGE_ATTEMPTS` the session is forced to `FAILURE` immediately,
regardless of the current state or any pending dispatch/race signals. -/
theorem attempt_limit_forces_failure (cfg : AgentConfig) (s : SessionState) (inp : StepInput) :
    (s.state ≠ .SUCCESS → s.state ≠ .FAILURE →
      (loop_step cfg s inp).challenge_attempts = s.challenge_attempts + 1)
    ∧ (s.state ≠ .SUCCESS → s.state ≠ .FAILURE →
        cfg.MAX_CHALLENGE_ATTEMPTS < s.challenge_attempts + 1 →
        loop_step cfg s inp
          = { s with challenge_attempts := s.challenge_attempts + 1, state := .FAILURE }) := by
  constructor
  · intro hs hf
    simp only [loop_step]
    rw [if_neg (by simp [hs, hf])]
    cases hd : inp.dispatch <;>
      simp only [hd] <;>
      (repeat' split) <;>
      simp [submitted_step_attempts]
  · intro hs hf hlim
    simp only [loop_step]
    rw [if_neg (by simp [hs, hf]), if_pos (by simpa using hlim)]

/-- Witness for claim C3 at the default configuration
(`MAX_CHALLENGE_ATTEMPTS = 4`): a `SUBMITTED` session whose attempt counter
is already 4 is forced to `FAILURE` on the next iteration even though the
race input would have yielded a passing verdict. -/
theorem attempt_limit_forces_failure_witness :
    (({ state := .SUBMITTED, reset_count := 0, challenge_attempts := 4,
        captcha_payload := none, cr_list := [] } : SessionState).state ≠ SolveState.SUCCESS)
    ∧ (({ state := .SUBMITTED, reset_count := 0, challenge_attempts := 4,
          captcha_payload := none, cr_list := [] } : SessionState).state ≠ SolveState.FAILURE)
    ∧ (({} : AgentConfig).MAX_CHALLENGE_ATTEMPTS < 4 + 1)
    ∧ loop_step {}
        { state := .SUBMITTED, reset_count := 0, challenge_attempts := 4,
          captcha_payload := none, cr_list := [] }
        { dispatch := .ok, race := .verdictFirst { is_pass := true } }
      = { state := .FAILURE, reset_count := 0, challenge_attempts := 5,
          captcha_payload := none, cr_list := [] } := by
  refine ⟨by decide, by decide, by decide, ?_⟩
  exact (attempt_limit_forces_failure {}
    { state := .SUBMITTED, reset_count := 0, challenge_attempts := 4,
      captcha_payload := none, cr_list := [] }
    { dispatch := .ok, race := .verdictFirst { is_pass := true } }).2
    (by decide) (by decide) (by decide)

/-! ### Rotation scheduler claim -/

/-- Characterisation of a successful priority scan: the returned model heads
a decomposition of the scanned list whose earlier models all have an empty
available-credential list, and the returned credentials are exactly the
non-exhausted filter for that model (and non-empty). -/
theorem first_available_some (exhausted : String → String → Bool) (api_keys : List String) :
    ∀ (ms : List String) (m : String) (ks : List String),
      first_available exhausted api_keys ms = some (m, ks) →
      ks = api_keys.filter (fun k => !(exhausted k m))
      ∧ ks ≠ []
      ∧ ∃ l1 l2, ms = l1 ++ m :: l2
          ∧ ∀ m2 ∈ l1, api_keys.filter (fun k => !(exhausted k m2)) = [] := by
  intro ms
  induction ms with
  | nil => intro m ks h; simp [first_available] at h
  | cons a as ih =>
    intro m ks h
    simp only [first_available] at h
    by_cases he : (api_keys.filter fun k => !(exhausted k a)).isEmpty
    · rw [if_pos he] at h
      obtain ⟨h1, h2, l1, l2, h3, h4⟩ := ih m ks h
      refine ⟨h1, h2, a :: l1, l2, by rw [h3]; rfl, ?_⟩
      intro m2 hm2
      rcases List.mem_cons.mp hm2 with h5 | h5
      · subst h5
        exact List.isEmpty_iff.mp he
      · exact h4 m2 h5
    · rw [if_neg he] at h
      obtain ⟨rfl, rfl⟩ := Prod.mk.injEq .. ▸ Option.some.injEq .. ▸ h
      refine ⟨rfl, ?_, [], as, rfl, by simp⟩
      intro hnil
      exact he (by rw [hnil]; rfl)

/-- Claim C8: `_get_available_model_and_keys` moves a preferred model to the
front of the priority list without disturbing the relative order of the
remaining models, returns the first model (in that order) whose set of
not-exhausted credentials is non-empty together with exactly those
credentials, and when no model has an available credential it fails open with
the top-priority model paired with the very first configured credential. -/
theorem rotation_select_spec (exhausted : String → String → Bool)
    (api_keys : List String) (p : String) :
    reorder_priority (some p) model_priority
      = p :: model_priority.filter (fun m => m != p)
    ∧ (model_priority.filter (fun m => m != p)).Sublist model_priority
    ∧ (∀ m ks,
        first_available exhausted api_keys (reorder_priority (some p) model_priority)
          = some (m, ks) →
        get_available_model_and_keys exhausted api_keys (some p) = (some m, ks)
        ∧ ks = api_keys.filter (fun k => !(exhausted k m))
        ∧ ks ≠ []
        ∧ ∃ l1 l2, reorder_priority (some p) model_priority = l1 ++ m :: l2
            ∧ ∀ m2 ∈ l1, api_keys.filter (fun k => !(exhausted k m2)) = [])
    ∧ (∀ k0 rest, api_keys = k0 :: rest →
        first_available exhausted api_keys (reorder_priority (some p) model_priority) = none →
        get_available_model_and_keys exhausted api_keys (some p) = (some p, [k0])) := by
  refine ⟨rfl, List.filter_sublist _, ?_, ?_⟩
  · intro m ks h
    obtain ⟨h1, h2, h3⟩ := first_available_some exhausted api_keys _ m ks h
    exact ⟨by simp [get_available_model_and_keys, h], h1, h2, h3⟩
  · intro k0 rest hk h
    subst hk
    simp only [reorder_priority] at h
    simp [get_available_model_and_keys, reorder_priority, h]

/-- Witness for claim C8: with priority
`[gemini-2.5-flash, gemini-2.5-flash-lite, gemini-3-flash]` and preferred
`gemini-2.5-flash-lite`, every credential exhausted for the preferred model
but all free for `gemini-2.5-flash`, the scheduler returns
`(gemini-2.5-flash, [k1, k2])`. -/
theorem rotation_select_spec_witness :
    first_available (fun _ m => m == "gemini-2.5-flash-lite") ["k1", "k2"]
        (reorder_priority (some "gemini-2.5-flash-lite") model_priority)
      = some ("gemini-2.5-flash", ["k1", "k2"])
    ∧ get_available_model_and_keys (fun _ m => m == "gemini-2.5-flash-lite") ["k1", "k2"]
        (some "gemini-2.5-flash-lite")
      = (some "gemini-2.5-flash", ["k1", "k2"]) :=
  ⟨by decide,
    ((rotation_select_spec (fun _ m => m == "gemini-2.5-flash-lite") ["k1", "k2"]
      "gemini-2.5-flash-lite").2.2.1 "gemini-2.5-flash" ["k1", "k2"] (by decide)).1⟩
